import Mathlib

/-!
Shallow embedding of `src/docusaurus/src/components/VocabTable/index.js`,
the vocabulary-table renderer of the Das_Spigel_Crawl_Docsaurus site.

The component is a pure function from a (possibly absent) list of
vocabulary entries to a render tree.  We model the render tree as a small
inductive (`Node`), a vocabulary entry as a record of optional text fields
plus any extra fields the record may carry, and the two exported
components (`VocabTable`, `VocabWord`) as Lean functions mirroring the
JSX structure.  React renders `{undefined}` as no node at all and omits
an attribute whose value is `undefined`; the embedding reflects this by
dropping absent fields (`optText`, `optAttr`).
-/

/-- A rendered markup node: an element with a tag, attributes and
children, or a text node. -/
inductive Node : Type where
  | elem (tag : String) (attrs : List (String × String)) (children : List Node)
  | text (s : String)
  deriving Repr

/-- One vocabulary record as passed in by the authoring layer:
`german`, `english`, `notes` may each be present or absent, and the
record may carry arbitrary further fields (`extra`) that the component
never reads. -/
structure Entry : Type where
  german : Option String := none
  english : Option String := none
  notes : Option String := none
  extra : List (String × String) := []
  deriving Repr, DecidableEq

/-- JSX `{x}` for a possibly-absent text value: absent renders nothing. -/
def optText : Option String → List Node
  | none => []
  | some s => [Node.text s]

/-- A JSX attribute whose value may be absent: absent omits the attribute. -/
def optAttr (name : String) : Option String → List (String × String)
  | none => []
  | some s => [(name, s)]

namespace styles

/- Class names supplied by `styles.module.css` (a CSS module: each
exported class is an opaque text token; we use the source names). -/

def vocabContainer : String := "vocabContainer"

def vocabTable : String := "vocabTable"

def germanHeader : String := "germanHeader"

def englishHeader : String := "englishHeader"

def notesHeader : String := "notesHeader"

def vocabRow : String := "vocabRow"

def germanWord : String := "germanWord"

def englishWord : String := "englishWord"

def notes : String := "notes"

def vocabWord : String := "vocabWord"

def tooltip : String := "tooltip"

end styles

/-- The `<tr key={index}>` produced for `entry` at list position `index`
inside `vocabulary.map((entry, index) => ...)`. -/
def vocabRow (index : Nat) (entry : Entry) : Node :=
  Node.elem "tr" [("key", toString index), ("className", styles.vocabRow)]
    [ Node.elem "td" [("className", styles.germanWord)] (optText entry.german)
    , Node.elem "td" [("className", styles.englishWord)] (optText entry.english)
    , Node.elem "td" [("className", styles.notes)] (optText entry.notes) ]

/-- The fixed `<thead>` of the table. -/
def vocabHead : Node :=
  Node.elem "thead" []
    [ Node.elem "tr" []
        [ Node.elem "th" [("className", styles.germanHeader)] [Node.text "German"]
        , Node.elem "th" [("className", styles.englishHeader)] [Node.text "English"]
        , Node.elem "th" [("className", styles.notesHeader)] [Node.text "Notes"] ] ]

/-- `export default function VocabTable({ vocabulary })`.
`vocabulary` may be absent (`none`, the JS null/undefined case) or a
list; `!vocabulary || vocabulary.length === 0` yields the fallback
paragraph, otherwise the container/table/thead/tbody structure with one
row per entry, keyed by index. -/
def VocabTable (vocabulary : Option (List Entry)) : Node :=
  match vocabulary with
  | none => Node.elem "p" [] [Node.text "No vocabulary data available."]
  | some v =>
    if v.length = 0 then
      Node.elem "p" [] [Node.text "No vocabulary data available."]
    else
      Node.elem "div" [("className", styles.vocabContainer)]
        [ Node.elem "table" [("className", styles.vocabTable)]
            [ vocabHead
            , Node.elem "tbody" [] (v.enum.map fun p => vocabRow p.1 p.2) ] ]

/-- `export function VocabWord({ german, english })`: a span whose
`title` attribute and nested tooltip span carry `english`, with `german`
as the direct text. -/
def VocabWord (german english : Option String) : Node :=
  Node.elem "span" (("className", styles.vocabWord) :: optAttr "title" english)
    (optText german ++ [Node.elem "span" [("className", styles.tooltip)] (optText english)])

/-! ### Accessors over the render tree (for stating the contract) -/

/-- The children of a node. -/
def childNodes : Node → List Node
  | Node.elem _ _ cs => cs
  | Node.text _ => []

/-- The value of the attribute called `name`, when set. -/
def attrVal (name : String) : Node → Option String
  | Node.elem _ attrs _ => (attrs.find? fun p => p.1 = name).map Prod.snd
  | Node.text _ => none

/-- The text of a node when it is a text node, else empty. -/
def textOf : Node → String
  | Node.text s => s
  | Node.elem _ _ _ => ""

/-- Concatenation of the text nodes in a list of nodes. -/
def textConcat : List Node → String
  | [] => ""
  | n :: ns => textOf n ++ textConcat ns

/-- The text written directly inside a node (not inside nested elements):
the user-visible primary text of a simple element. -/
def directText (n : Node) : String :=
  textConcat (childNodes n)

mutual

/-- Whether a `<table>` element occurs anywhere in the tree. -/
def hasTable : Node → Bool
  | Node.elem tag _ cs => tag = "table" || hasTableList cs
  | Node.text _ => false

def hasTableList : List Node → Bool
  | [] => false
  | n :: ns => hasTable n || hasTableList ns

end

/-- The data rows (`<tbody>` children) of a rendered vocabulary table;
empty when the node is not of the table shape. -/
def dataRows : Node → List Node
  | Node.elem "div" _ [Node.elem "table" _ [_, Node.elem "tbody" _ rows]] => rows
  | _ => []

/-- The header cells (`<thead>`'s row children) of a rendered vocabulary
table; empty when the node is not of the table shape. -/
def headerCells : Node → List Node
  | Node.elem "div" _ [Node.elem "table" _ [Node.elem "thead" _ [Node.elem "tr" _ hs], _]] => hs
  | _ => []

/-- The texts of the cells of a row, in order. -/
def rowCellTexts (n : Node) : List String :=
  (childNodes n).map directText

/-- The three cell texts the contract expects for an entry: each field
verbatim, an absent field as the empty string. -/
def entryCells (e : Entry) : List String :=
  [e.german.getD "", e.english.getD "", e.notes.getD ""]

/-- The texts of the tooltip children (children carrying the `tooltip`
class) of a node. -/
def tooltipTexts (n : Node) : List String :=
  (childNodes n).filterMap fun c =>
    if attrVal "className" c = some styles.tooltip then some (directText c) else none

/-- The fallback paragraph produced when there is no data. -/
def noDataFallback : Node :=
  Node.elem "p" [] [Node.text "No vocabulary data available."]

/-- Rendering the same input twice, modelling two successive render
passes over one list. -/
def renderTwice (vocabulary : Option (List Entry)) : Node × Node :=
  (VocabTable vocabulary, VocabTable vocabulary)

/-! ### Helper lemmas shared by the contract theorems -/

/-- On a non-empty list the guard is not taken and the full table
structure is produced. -/
theorem VocabTable_of_ne_nil (v : List Entry) (h : v ≠ []) :
    VocabTable (some v) =
      Node.elem "div" [("className", styles.vocabContainer)]
        [ Node.elem "table" [("className", styles.vocabTable)]
            [ vocabHead
            , Node.elem "tbody" [] (v.enum.map fun p => vocabRow p.1 p.2) ] ] := by
  have hl : v.length ≠ 0 := by simpa [List.length_eq_zero] using h
  simp [VocabTable, hl]

/-- The data rows of the table rendered from a non-empty list are the
index-keyed rows of the entries, in order. -/
theorem dataRows_VocabTable (v : List Entry) (h : v ≠ []) :
    dataRows (VocabTable (some v)) = v.enum.map fun p => vocabRow p.1 p.2 := by
  rw [VocabTable_of_ne_nil v h]; rfl

/-- The concatenated text of an optional-text child list is the value,
or empty when absent. -/
theorem textConcat_optText (s : Option String) : textConcat (optText s) = s.getD "" := by
  cases s <;> simp [optText, textConcat, textOf, String.append_empty]

/-- The cell texts of a rendered row are the entry's fields verbatim,
with absent fields empty. -/
theorem rowCellTexts_vocabRow (i : Nat) (e : Entry) :
    rowCellTexts (vocabRow i e) = entryCells e := by
  simp [rowCellTexts, vocabRow, childNodes, directText, textConcat_optText, entryCells]

/-- The cells of all data rows, at once. -/
theorem mapped_rows (v : List Entry) (h : v ≠ []) :
    (dataRows (VocabTable (some v))).map rowCellTexts = v.map entryCells := by
  rw [dataRows_VocabTable v h, List.map_map]
  have hfun : (rowCellTexts ∘ fun p : Nat × Entry => vocabRow p.1 p.2) =
      (entryCells ∘ Prod.snd) := by
    funext p
    exact rowCellTexts_vocabRow p.1 p.2
  rw [hfun, ← List.map_map, List.enum_map_snd]

/-- The `key` attribute of the row rendered at position `i`. -/
theorem attrVal_key_vocabRow (i : Nat) (e : Entry) :
    attrVal "key" (vocabRow i e) = some (toString i) := rfl

/-- Agreement of two entries on the three fields the component reads. -/
def agreeEntry (a b : Entry) : Prop :=
  a.german = b.german ∧ a.english = b.english ∧ a.notes = b.notes

/-- A row depends only on the three fields the component reads. -/
theorem vocabRow_congr (i : Nat) (a b : Entry) (hab : agreeEntry a b) :
    vocabRow i a = vocabRow i b := by
  simp [vocabRow, hab.1, hab.2.1, hab.2.2]

/-- The whole row list depends only on the three read fields of each
entry, position by position. -/
theorem enumFrom_rows_congr (a b : List Entry) (hab : List.Forall₂ agreeEntry a b)
    (n : Nat) :
    ((a.enumFrom n).map fun p => vocabRow p.1 p.2) =
      ((b.enumFrom n).map fun p => vocabRow p.1 p.2) := by
  induction hab generalizing n with
  | nil => rfl
  | cons hh _ ih => simp [List.enumFrom, vocabRow_congr _ _ _ hh, ih]

/-! ### Contract theorems -/

/-- C1: for every non-empty vocabulary list of length N, the table-mode
renderer produces exactly N data rows, in input order, and row i's three
cells are the i-th entry's `german`, `english` and `notes` values
verbatim, the cell being empty when the field is absent. -/
theorem vocabTable_rows (v : List Entry) (h : v ≠ []) :
    (dataRows (VocabTable (some v))).length = v.length ∧
    (dataRows (VocabTable (some v))).map rowCellTexts = v.map entryCells := by
  refine ⟨?_, mapped_rows v h⟩
  rw [dataRows_VocabTable v h, List.length_map, List.enum_length]

/-- Witness for C1: a concrete two-entry list yields exactly its two
rows, cells verbatim, with the absent notes of the second entry empty. -/
theorem vocabTable_rows_witness :
    (dataRows (VocabTable (some
        [ Entry.mk (some "Haus") (some "house") (some "neuter") []
        , Entry.mk (some "gehen") (some "to go") none [] ]))).length = 2 ∧
    (dataRows (VocabTable (some
        [ Entry.mk (some "Haus") (some "house") (some "neuter") []
        , Entry.mk (some "gehen") (some "to go") none [] ]))).map rowCellTexts =
      [["Haus", "house", "neuter"], ["gehen", "to go", ""]] := by
  have h := vocabTable_rows
    [ Entry.mk (some "Haus") (some "house") (some "neuter") []
    , Entry.mk (some "gehen") (some "to go") none [] ] (List.cons_ne_nil _ _)
  exact ⟨h.1, by rw [h.2]; rfl⟩

/-- C2: an absent list and an empty list both render exactly the
fallback paragraph "No vocabulary data available.", with no table
anywhere in the output, and the two cases produce identical output. -/
theorem vocabTable_no_data :
    VocabTable none = noDataFallback ∧
    VocabTable (some []) = noDataFallback ∧
    VocabTable (some []) = VocabTable none ∧
    hasTable (VocabTable none) = false ∧
    hasTable (VocabTable (some [])) = false :=
  ⟨rfl, rfl, rfl, rfl, rfl⟩

/-- C3: for every non-empty vocabulary list, the header cells are
exactly "German", "English", "Notes", in that order, independent of the
list's contents. -/
theorem vocabTable_header (v : List Entry) (h : v ≠ []) :
    (headerCells (VocabTable (some v))).map directText = ["German", "English", "Notes"] := by
  rw [VocabTable_of_ne_nil v h]
  rfl

/-- Witness for C3: the header of a concrete one-entry table. -/
theorem vocabTable_header_witness :
    (headerCells (VocabTable (some [Entry.mk (some "Haus") (some "house") none []]))).map
        directText = ["German", "English", "Notes"] :=
  vocabTable_header [Entry.mk (some "Haus") (some "house") none []] (List.cons_ne_nil _ _)

/-- C6: a singleton list renders a table with exactly one data row, not
the no-data fallback. -/
theorem vocabTable_singleton (e : Entry) :
    hasTable (VocabTable (some [e])) = true ∧
    (dataRows (VocabTable (some [e]))).length = 1 ∧
    VocabTable (some [e]) ≠ noDataFallback := by
  refine ⟨rfl, rfl, ?_⟩
  simp [VocabTable, noDataFallback]

/-- Witness for C6: the singleton boundary case at a concrete entry. -/
theorem vocabTable_singleton_witness :
    hasTable (VocabTable (some [Entry.mk (some "Haus") (some "house") (some "neuter") []])) =
        true ∧
    (dataRows (VocabTable (some
        [Entry.mk (some "Haus") (some "house") (some "neuter") []]))).length = 1 ∧
    VocabTable (some [Entry.mk (some "Haus") (some "house") (some "neuter") []]) ≠
        noDataFallback :=
  vocabTable_singleton (Entry.mk (some "Haus") (some "house") (some "neuter") [])

/-- C8: in the rendered table of a non-empty list, the row at position i
carries the key attribute i: row identity is positional. -/
theorem vocabTable_row_keys (v : List Entry) (h : v ≠ []) :
    (dataRows (VocabTable (some v))).map (attrVal "key") =
      (List.range v.length).map fun i => some (toString i) := by
  rw [dataRows_VocabTable v h, List.map_map]
  have hfun : ((attrVal "key") ∘ fun p : Nat × Entry => vocabRow p.1 p.2) =
      ((fun i => some (toString i)) ∘ Prod.fst) := by
    funext p
    exact attrVal_key_vocabRow p.1 p.2
  rw [hfun, ← List.map_map, List.enum_map_fst]

/-- Witness for C8: the keys of a concrete two-entry table are "0", "1". -/
theorem vocabTable_row_keys_witness :
    (dataRows (VocabTable (some
        [ Entry.mk (some "Haus") (some "house") none []
        , Entry.mk (some "gehen") (some "to go") none [] ]))).map (attrVal "key") =
      [some "0", some "1"] := by
  have h := vocabTable_row_keys
    [ Entry.mk (some "Haus") (some "house") none []
    , Entry.mk (some "gehen") (some "to go") none [] ] (List.cons_ne_nil _ _)
  rw [h]
  rfl

/-- C4: for every (german, english) pair, the inline word fragment's
direct visible text is `german`, and `english` is both the tooltip
span's text and the element's `title` attribute. -/
theorem vocabWord_pair (german english : String) :
    directText (VocabWord (some german) (some english)) = german ∧
    attrVal "title" (VocabWord (some german) (some english)) = some english ∧
    tooltipTexts (VocabWord (some german) (some english)) = [english] := by
  refine ⟨?_, rfl, ?_⟩
  · simp [VocabWord, directText, childNodes, optText, optAttr, textConcat, textOf,
      String.append_empty]
  · simp [tooltipTexts, VocabWord, childNodes, optText, optAttr, attrVal, directText,
      textConcat, textOf, styles.tooltip, String.append_empty]

/-- Witness for C4: the inline fragment at a concrete pair. -/
theorem vocabWord_pair_witness :
    directText (VocabWord (some "Haus") (some "house")) = "Haus" ∧
    attrVal "title" (VocabWord (some "Haus") (some "house")) = some "house" ∧
    tooltipTexts (VocabWord (some "Haus") (some "house")) = ["house"] :=
  vocabWord_pair "Haus" "house"

/-- C5: a non-empty list renders a table whatever the entries are, and
an entry's missing field renders as an empty cell in its row. -/
theorem vocabTable_malformed (v : List Entry) (h : v ≠ []) (i : Nat) (hi : i < v.length) :
    hasTable (VocabTable (some v)) = true ∧
    ∃ cells, ((dataRows (VocabTable (some v))).map rowCellTexts)[i]? = some cells ∧
      ((v.get ⟨i, hi⟩).german = none → cells.getD 0 "?" = "") ∧
      ((v.get ⟨i, hi⟩).english = none → cells.getD 1 "?" = "") ∧
      ((v.get ⟨i, hi⟩).notes = none → cells.getD 2 "?" = "") := by
  constructor
  · rw [VocabTable_of_ne_nil v h]
    rfl
  · refine ⟨entryCells (v.get ⟨i, hi⟩), ?_, ?_, ?_, ?_⟩
    · rw [mapped_rows v h, List.getElem?_map, List.getElem?_eq_getElem hi]
      rfl
    · intro hg
      rw [List.get_eq_getElem] at hg
      simp [entryCells, hg]
    · intro he
      rw [List.get_eq_getElem] at he
      simp [entryCells, he]
    · intro hn
      rw [List.get_eq_getElem] at hn
      simp [entryCells, hn]

/-- Witness for C5: an entry with all three fields absent still renders,
as a row of three empty cells. -/
theorem vocabTable_malformed_witness :
    hasTable (VocabTable (some [Entry.mk none none none []])) = true ∧
    ∃ cells,
      ((dataRows (VocabTable (some [Entry.mk none none none []]))).map rowCellTexts)[0]? =
        some cells ∧
      cells.getD 0 "?" = "" ∧ cells.getD 1 "?" = "" ∧ cells.getD 2 "?" = "" := by
  obtain ⟨ht, cells, hcells, h1, h2, h3⟩ :=
    vocabTable_malformed [Entry.mk none none none []] (List.cons_ne_nil _ _) 0 (by decide)
  exact ⟨ht, cells, hcells, h1 rfl, h2 rfl, h3 rfl⟩

/-- C7: the renderer is deterministic and stateless: two render passes
over the same input produce identical output.  (In the embedding the
component is a function of its input alone: there is no state parameter
it could read or write, so the two passes agree definitionally.) -/
theorem vocabTable_deterministic (vocabulary : Option (List Entry)) :
    (renderTwice vocabulary).1 = (renderTwice vocabulary).2 := rfl

/-- C9: the inline word mode accepts absent fields: an absent `german`
gives empty visible text, an absent `english` gives an empty tooltip
text and empty (absent) `title` alternative text. -/
theorem vocabWord_absent (german english : Option String) :
    (german = none → directText (VocabWord german english) = "") ∧
    (english = none →
      (attrVal "title" (VocabWord german english)).getD "" = "" ∧
      tooltipTexts (VocabWord german english) = [""]) := by
  constructor
  · intro hg
    subst hg
    cases english <;>
      simp [VocabWord, directText, childNodes, optText, optAttr, textConcat, textOf]
  · intro he
    subst he
    cases german <;>
      simp [VocabWord, directText, childNodes, optText, optAttr, textConcat, textOf,
        tooltipTexts, attrVal, styles.tooltip]

/-- Witness for C9: both fields absent still render, as empty texts. -/
theorem vocabWord_absent_witness :
    directText (VocabWord none none) = "" ∧
    (attrVal "title" (VocabWord none none)).getD "" = "" ∧
    tooltipTexts (VocabWord none none) = [""] :=
  ⟨(vocabWord_absent none none).1 rfl, (vocabWord_absent none none).2 rfl⟩

/-- C10: noninterference: two lists of equal length whose entries agree
position by position on `german`, `english` and `notes` render to
identical output, whatever extra fields the entry records carry. -/
theorem vocabTable_noninterference (v₁ v₂ : List Entry)
    (hlen : v₁.length = v₂.length)
    (hagree : ∀ i (h₁ : i < v₁.length) (h₂ : i < v₂.length),
      agreeEntry (v₁.get ⟨i, h₁⟩) (v₂.get ⟨i, h₂⟩)) :
    VocabTable (some v₁) = VocabTable (some v₂) := by
  have hf : List.Forall₂ agreeEntry v₁ v₂ := List.forall₂_iff_get.2 ⟨hlen, hagree⟩
  by_cases hz : v₁.length = 0
  · have hz₂ : v₂.length = 0 := hlen ▸ hz
    simp [VocabTable, hz, hz₂]
  · have hz₂ : ¬v₂.length = 0 := fun c => hz (by rw [hlen, c])
    simp [VocabTable, hz, hz₂]
    exact enumFrom_rows_congr v₁ v₂ hf 0

/-- Witness for C10: two singleton lists differing only in an extra
field render identically. -/
theorem vocabTable_noninterference_witness :
    VocabTable (some [Entry.mk (some "Haus") (some "house") none [("secret", "1")]]) =
      VocabTable (some [Entry.mk (some "Haus") (some "house") none []]) := by
  refine vocabTable_noninterference _ _ rfl ?_
  intro i h₁ h₂
  cases i with
  | zero => exact ⟨rfl, rfl, rfl⟩
  | succ n => exact absurd h₁ (by simp)
